import Mathlib

/-!
Shallow embedding of the `rigid_body` crate (`src/lib.rs`) over the real
numbers, together with proofs about its integration routines.

The crate is generic over a numeric type `T : Float`; we instantiate it at
`ℝ`, so all arithmetic is exact and `sin`/`cos` are the real transcendental
functions.  Rust 3-vectors `[T; 3]` become triples `ℝ × ℝ × ℝ`, with the
`vecmath` helpers `vec3_add`, `vec3_scale`, `vec3_dot`, `vec3_cross`
translated componentwise.  The in-place methods on `RigidBody` become
functions from a body state to a new body state.
-/

noncomputable section

namespace RB

/-- Embedding of vecmath's 3-vector type at the real numbers. -/
abbrev Vector3 : Type := ℝ × ℝ × ℝ

/-- Embedding of the crate's type alias: the type of attitude for
orientation, torque and wrench, a pair of a scalar and a 3-vector. -/
abbrev Attitude : Type := ℝ × Vector3

/-- Embedding of vecmath's componentwise vector addition. -/
def vec3_add (a b : Vector3) : Vector3 :=
  (a.1 + b.1, a.2.1 + b.2.1, a.2.2 + b.2.2)

/-- Embedding of vecmath's scalar multiplication of a vector. -/
def vec3_scale (a : Vector3) (s : ℝ) : Vector3 :=
  (a.1 * s, a.2.1 * s, a.2.2 * s)

/-- Embedding of vecmath's dot product. -/
def vec3_dot (a b : Vector3) : ℝ :=
  a.1 * b.1 + a.2.1 * b.2.1 + a.2.2 * b.2.2

/-- Embedding of vecmath's cross product. -/
def vec3_cross (a b : Vector3) : Vector3 :=
  (a.2.1 * b.2.2 - a.2.2 * b.2.1,
   a.2.2 * b.1 - a.1 * b.2.2,
   a.1 * b.2.1 - a.2.1 * b.1)

/-- Embedding of the crate's `RigidBody<T>` struct at `T = ℝ`. -/
structure RigidBody : Type where
  pos : Vector3
  vel : Vector3
  acc : Vector3
  ori : Attitude
  tor : Attitude
  wre : Attitude

/-- Embedding of the free function `angular`: solves the analogue of
`s' = s + v * t` for attitude, per the source.  Note the source computes
`cos` and `sin` of `b.0` (the magnitude of `b`), not of `b.0 * t`. -/
def angular (a b : Attitude) (t : ℝ) : Attitude :=
  let angle := a.1 + vec3_dot a.2 b.2 * b.1 * t
  let c := Real.cos b.1
  let s := Real.sin b.1
  let axis :=
    vec3_add (vec3_scale a.2 c)
      (vec3_add (vec3_scale (vec3_cross b.2 a.2) s)
        (vec3_scale b.2 (vec3_dot b.2 a.2 * (1 - c))))
  (angle, axis)

/-- Embedding of `RigidBody::update_linear`: kick-drift-kick update of the
linear coordinates.  The drift step reads the already half-kicked velocity,
exactly as the sequential mutation in the source does. -/
def RigidBody.update_linear (body : RigidBody) (dt : ℝ) : RigidBody :=
  let half_dt := (0.5 : ℝ) * dt
  let vel1 := vec3_add body.vel (vec3_scale body.acc half_dt)
  let pos1 := vec3_add body.pos (vec3_scale vel1 dt)
  let vel2 := vec3_add vel1 (vec3_scale body.acc half_dt)
  { body with pos := pos1, vel := vel2 }

/-- Embedding of `RigidBody::update_angular`: the same half-step scheme on
the angular coordinates, with `angular` in place of vector addition.  The
middle step reads the already half-kicked torque, as in the source. -/
def RigidBody.update_angular (body : RigidBody) (dt : ℝ) : RigidBody :=
  let half_dt := (0.5 : ℝ) * dt
  let tor1 := angular body.tor body.wre half_dt
  let ori1 := angular body.ori tor1 dt
  let tor2 := angular tor1 body.wre half_dt
  { body with ori := ori1, tor := tor2 }

/-- Embedding of `RigidBody::update`: linear update followed by the angular
update, with the same time step. -/
def RigidBody.update (body : RigidBody) (dt : ℝ) : RigidBody :=
  (body.update_linear dt).update_angular dt

/-- C1: the spec claims the vector component of `angular a b t` is the
Rodrigues rotation of `a.vector` about `b.vector` by angle `b.magnitude * t`.
The code computes `cos` and `sin` of `b.magnitude` alone, never multiplying
by `t`; at `a = (0,(1,0,0))`, `b = (π,(0,0,1))`, `t = 0` the code yields
`(-1,0,0)` while the spec formula (with `θ = π * 0 = 0`) yields `(1,0,0)`. -/
theorem angular_axis_ne_spec_rodrigues :
    (angular (0, (1, 0, 0)) (Real.pi, (0, 0, 1)) 0).2 ≠
      vec3_add (vec3_scale (1, 0, 0) (Real.cos (Real.pi * 0)))
        (vec3_add (vec3_scale (vec3_cross (0, 0, 1) (1, 0, 0)) (Real.sin (Real.pi * 0)))
          (vec3_scale (0, 0, 1)
            (vec3_dot (0, 0, 1) (1, 0, 0) * (1 - Real.cos (Real.pi * 0))))) := by
  simp only [angular, vec3_add, vec3_scale, vec3_dot, vec3_cross]
  norm_num [Real.cos_pi, Real.sin_pi, Prod.ext_iff]

/-- C2: the spec claims `angular a b 0 = a` for all `a`, `b`.  Because the
rotation angle used by the code is `b.magnitude` rather than
`b.magnitude * t`, the vector component is rotated even at `t = 0`: with
`a = (0,(1,0,0))` and `b = (π,(0,0,1))` the code returns `(0,(-1,0,0)) ≠ a`. -/
theorem angular_t_zero_not_identity :
    angular (0, (1, 0, 0)) (Real.pi, (0, 0, 1)) 0 ≠
      ((0 : ℝ), ((1 : ℝ), (0 : ℝ), (0 : ℝ))) := by
  simp only [angular, vec3_add, vec3_scale, vec3_dot, vec3_cross]
  norm_num [Real.cos_pi, Real.sin_pi, Prod.ext_iff]

/-- C3: over exact arithmetic, `update_linear dt` sets the velocity to
`vel0 + acc*dt` and the position to `pos0 + vel0*dt + acc*dt²/2`: the
half-kick/drift/half-kick scheme matches the constant-acceleration analytic
solution. -/
theorem update_linear_constant_accel_exact (body : RigidBody) (dt : ℝ) :
    (body.update_linear dt).vel = vec3_add body.vel (vec3_scale body.acc dt) ∧
    (body.update_linear dt).pos =
      vec3_add body.pos
        (vec3_add (vec3_scale body.vel dt) (vec3_scale body.acc (dt ^ 2 / 2))) := by
  obtain ⟨⟨px, py, pz⟩, ⟨vx, vy, vz⟩, ⟨ax, ay, az⟩, o, tq, w⟩ := body
  simp only [RigidBody.update_linear, vec3_add, vec3_scale, Prod.mk.injEq]
  norm_num
  refine ⟨⟨?_, ?_, ?_⟩, ?_, ?_, ?_⟩ <;> ring

/-- C4: composing with a zero-magnitude rate is the identity: for every
attitude `a`, every vector `v` and every scalar `t`,
`angular a (0, v) t = a`, whatever `v` is. -/
theorem angular_zero_rate_identity (a : Attitude) (v : Vector3) (t : ℝ) :
    angular a (0, v) t = a := by
  obtain ⟨am, ⟨x, y, z⟩⟩ := a
  obtain ⟨vx, vy, vz⟩ := v
  simp only [angular, vec3_add, vec3_scale, vec3_dot, vec3_cross,
    Real.cos_zero, Real.sin_zero, Prod.mk.injEq]
  refine ⟨by ring, by ring, by ring, by ring⟩

/-- C5: the magnitude component of `angular a b t` is exactly
`a.magnitude + dot(a.vector, b.vector) * b.magnitude * t`. -/
theorem angular_magnitude_eq (a b : Attitude) (t : ℝ) :
    (angular a b t).1 = a.1 + vec3_dot a.2 b.2 * b.1 * t := rfl

/-- C6: over exact arithmetic, `update_linear dt` followed by
`update_linear (-dt)` (with the same acceleration) restores the original
position and velocity exactly. -/
theorem update_linear_time_reversible (body : RigidBody) (dt : ℝ) :
    ((body.update_linear dt).update_linear (-dt)).pos = body.pos ∧
    ((body.update_linear dt).update_linear (-dt)).vel = body.vel := by
  obtain ⟨⟨px, py, pz⟩, ⟨vx, vy, vz⟩, ⟨ax, ay, az⟩, o, tq, w⟩ := body
  simp only [RigidBody.update_linear, vec3_add, vec3_scale, Prod.mk.injEq]
  norm_num

/-- C7: when `a.vector` and `b.vector` are the same unit vector, the
magnitude of `angular a b t` is `a.magnitude + b.magnitude * t` and the
vector component is `a.vector` unchanged. -/
theorem angular_parallel_axis (a b : Attitude) (t : ℝ)
    (h1 : a.2 = b.2) (h2 : vec3_dot b.2 b.2 = 1) :
    (angular a b t).1 = a.1 + b.1 * t ∧ (angular a b t).2 = a.2 := by
  obtain ⟨am, av⟩ := a
  obtain ⟨bm, ⟨x, y, z⟩⟩ := b
  simp only at h1
  subst h1
  simp only [vec3_dot] at h2
  simp only [angular, vec3_add, vec3_scale, vec3_dot, vec3_cross, Prod.mk.injEq]
  refine ⟨by linear_combination (bm * t) * h2, ?_, ?_, ?_⟩
  · linear_combination (x * (1 - Real.cos bm)) * h2
  · linear_combination (y * (1 - Real.cos bm)) * h2
  · linear_combination (z * (1 - Real.cos bm)) * h2

/-- Witness for C7 at the concrete input `a = (2,(0,0,1))`,
`b = (3,(0,0,1))`, `t = 5`. -/
theorem angular_parallel_axis_witness :
    (angular (2, (0, 0, 1)) (3, (0, 0, 1)) 5).1 = 2 + 3 * 5 ∧
    (angular (2, (0, 0, 1)) (3, (0, 0, 1)) 5).2 = (0, 0, 1) :=
  angular_parallel_axis (2, (0, 0, 1)) (3, (0, 0, 1)) 5 rfl
    (by norm_num [vec3_dot])

/-- C8: `update dt` is exactly `update_linear dt` followed by
`update_angular dt`, with the same time step for both. -/
theorem update_eq_linear_then_angular (body : RigidBody) (dt : ℝ) :
    body.update dt = (body.update_linear dt).update_angular dt := rfl

/-- C9: `update dt` leaves `acc` and `wre` unchanged; `update_linear`
mutates only `pos` and `vel` (so `acc`, `ori`, `tor`, `wre` pass through),
and `update_angular` mutates only `tor` and `ori` (so `pos`, `vel`, `acc`,
`wre` pass through). -/
theorem update_frame_conditions (body : RigidBody) (dt : ℝ) :
    (body.update dt).acc = body.acc ∧ (body.update dt).wre = body.wre ∧
    (body.update_linear dt).acc = body.acc ∧
    (body.update_linear dt).ori = body.ori ∧
    (body.update_linear dt).tor = body.tor ∧
    (body.update_linear dt).wre = body.wre ∧
    (body.update_angular dt).pos = body.pos ∧
    (body.update_angular dt).vel = body.vel ∧
    (body.update_angular dt).acc = body.acc ∧
    (body.update_angular dt).wre = body.wre :=
  ⟨rfl, rfl, rfl, rfl, rfl, rfl, rfl, rfl, rfl, rfl⟩

/-- C10: the vector component of `angular a b t` does not depend on `t` at
all: the code rotates by the fixed angle `b.magnitude`, so the results at
any two times `t1`, `t2` have identical vector components. -/
theorem angular_axis_independent_of_time (a b : Attitude) (t1 t2 : ℝ) :
    (angular a b t1).2 = (angular a b t2).2 := rfl

end RB
